import Mathlib

/-!
Shallow embedding of the clock-widget core: `TimeModel` (src/js/models/TimeModel.js)
and `AlarmModel` (src/js/models/AlarmModel.js).

The time-zone extraction (`Date` / `Intl.DateTimeFormat`) is abstracted: the
calendar fields that `date.getHours()`, `date.getMinutes()`, `date.getSeconds()`
would return for the instant under display are taken as the inputs of `getTime`.
Everything after that point (the 12h/24h conversion, zero padding, the returned
TimeValue record, the hand angles, the drift state updates, the tick scheduler
and the alarm operations) is translated line by line from the source.
-/

namespace ClockCore

/-- `_padZero(num)`: `String(num).padStart(2, '0')` — pad with leading zeros to
at least two characters. For a natural number the decimal rendering has at
least one digit, so at most one zero is prepended. -/
def padZero (num : Nat) : String :=
  let s := toString num
  if s.length < 2 then "0" ++ s else s

/-- The JS idiom `hours % 12 || 12` from `getTime`: `0` is falsy, so a zero
remainder yields `12`. -/
def hourOr12 (h : Nat) : Nat :=
  if h % 12 = 0 then 12 else h % 12

/-- The fields of the object returned by `TimeModel.getTime` that the claims
touch. `hours`, `minutes`, `seconds` are the zero-padded string renderings;
`rawHours`, `rawMinutes`, `rawSeconds` the numeric fields; `period` the
AM/PM marker. (`dayName`, `monthName`, `dayOfMonth`, `year` and `raw` are
calendar plumbing no claim mentions and are not modelled.) -/
structure TimeValue where
  hours : String
  minutes : String
  seconds : String
  rawHours : Nat
  rawMinutes : Nat
  rawSeconds : Nat
  period : String
  deriving DecidableEq, Repr

/-- `TimeModel.getTime`, from the point where the calendar fields
`h = date.getHours()` (0–23), `m = date.getMinutes()`, `s = date.getSeconds()`
have been extracted for the current timezone. Mirrors the source exactly:
`period` starts as `'AM'`; when the format is 12h the period is computed and
the `hours` variable is reassigned to `hours % 12 || 12` BEFORE the returned
object is built, so `rawHours` receives the reassigned value. -/
def getTime (format24 : Bool) (h m s : Nat) : TimeValue :=
  let period : String := if format24 then "AM" else if h ≥ 12 then "PM" else "AM"
  let hours : Nat := if format24 then h else hourOr12 h
  { hours := padZero hours
    minutes := padZero m
    seconds := padZero s
    rawHours := hours
    rawMinutes := m
    rawSeconds := s
    period := period }

/-- The three degree values returned by `TimeModel.getHandAngles`. JS numbers
are modelled as rationals; every arithmetic step the source performs on these
fields is exact division and multiplication by small constants. -/
structure HandAngles where
  hour : ℚ
  minute : ℚ
  second : ℚ
  deriving DecidableEq, Repr

/-- `TimeModel.getHandAngles`: calls `getTime` and derives the angles from the
raw fields of the returned TimeValue. -/
def getHandAngles (format24 : Bool) (h m s : Nat) : HandAngles :=
  let time := getTime format24 h m s
  let secondAngle : ℚ := ((time.rawSeconds : ℚ) / 60) * 360
  let minuteAngle : ℚ := ((time.rawMinutes : ℚ) / 60) * 360 + ((time.rawSeconds : ℚ) / 60) * 6
  let hourAngle : ℚ := ((time.rawHours : ℚ) / 12) * 360 + ((time.rawMinutes : ℚ) / 60) * 30
  { hour := hourAngle, minute := minuteAngle, second := secondAngle }

/-- The drift-related fields of the TimeModel state: `lastSyncTime` and
`driftCorrection` (both epoch milliseconds / milliseconds, signed). -/
structure DriftState where
  lastSyncTime : Int
  driftCorrection : Int
  deriving DecidableEq, Repr

/-- `TimeModel._correctDrift` at wall-clock reading `now = Date.now()`:
`driftCorrection += (lastSyncTime + 60000) - now; lastSyncTime = now`. -/
def correctDrift (now : Int) (st : DriftState) : DriftState :=
  let theoreticalTime := st.lastSyncTime + 60000
  { driftCorrection := st.driftCorrection + (theoreticalTime - now)
    lastSyncTime := now }

/-- The drift-correction step of `TimeModel._onTick`: if more than 60000 ms of
wall time elapsed since the last sync, run `_correctDrift`; otherwise leave the
drift state alone. (The callback invocation and the `tick` event do not touch
this state.) -/
def onTickDrift (now : Int) (st : DriftState) : DriftState :=
  if now - st.lastSyncTime > 60000 then correctDrift now st else st

/-- `msUntilNextSecond` computed by `TimeModel._scheduleNextTick`:
`1000 - (now % 1000)`. -/
def msUntilNextSecond (now : Nat) : Nat :=
  1000 - now % 1000

/-- The scheduler-visible state of a TimeModel. `pendingDeadline` is the
absolute time at which the `setTimeout` queued by `_scheduleNextTick` will run;
the source discards the id `setTimeout` returns, so nothing else records it.
`animationFrameId` is the field `this.animationFrameId` that `stop` tests and
clears; no line of the source ever assigns it a timer handle (the constructor
leaves it undefined, modelled as `none`). `tickCount` counts completed
`_onTick` callback runs. -/
structure SchedState where
  pendingDeadline : Option Nat
  animationFrameId : Option Nat
  tickCount : Nat
  deriving DecidableEq, Repr

/-- `TimeModel._scheduleNextTick` at wall-clock reading `now`: queue a
`setTimeout` for `1000 - (now % 1000)` ms from now. The returned id is
discarded by the source, so only the deadline is recorded. -/
def scheduleNextTick (now : Nat) (st : SchedState) : SchedState :=
  { st with pendingDeadline := some (now + msUntilNextSecond now) }

/-- `TimeModel.start` (scheduler part): stores the callback and runs
`_scheduleNextTick`; it returns `this.animationFrameId`, which no code path
has assigned. -/
def startSched (now : Nat) (st : SchedState) : SchedState × Option Nat :=
  let st' := scheduleNextTick now st
  (st', st'.animationFrameId)

/-- `TimeModel.stop`: `if (this.animationFrameId) { cancelAnimationFrame(id);
this.animationFrameId = null; }`. `cancelAnimationFrame` acts on the animation
frame registry only; the pending `setTimeout` is untouched in either branch. -/
def stop (st : SchedState) : SchedState :=
  match st.animationFrameId with
  | some _ => { st with animationFrameId := none }
  | none => st

/-- The `setTimeout` callback queued by `_scheduleNextTick` firing at time
`now`: only possible when a timeout is pending and its deadline has been
reached; it runs `_onTick` and then `_scheduleNextTick` again. -/
def fireTimeout (now : Nat) (st : SchedState) : SchedState :=
  match st.pendingDeadline with
  | some d =>
      if d ≤ now then
        scheduleNextTick now { st with pendingDeadline := none, tickCount := st.tickCount + 1 }
      else st
  | none => st

/-- The stored alarm object: the fields the claims touch (`id` and `createdAt`
are opaque creation-time stamps no claim constrains). -/
structure Alarm where
  time : String
  enabled : Bool
  deriving DecidableEq, Repr

/-- AlarmModel state: `activeAlarm` is the single optional alarm. -/
structure AlarmState where
  activeAlarm : Option Alarm
  deriving DecidableEq, Repr

/-- `AlarmModel._isValidTimeFormat`: test against
`^([0-1][0-9]|2[0-3]):[0-5][0-9]$` — five characters, hour `00`–`23`,
a colon, minute `00`–`59`. -/
def isValidTimeFormat (time : String) : Bool :=
  match time.data with
  | [c0, c1, c2, c3, c4] =>
      ((decide ('0' ≤ c0) && decide (c0 ≤ '1') &&
        decide ('0' ≤ c1) && decide (c1 ≤ '9')) ||
       (c0 == '2' && decide ('0' ≤ c1) && decide (c1 ≤ '3'))) &&
      (c2 == ':') &&
      (decide ('0' ≤ c3) && decide (c3 ≤ '5')) &&
      (decide ('0' ≤ c4) && decide (c4 ≤ '9'))
  | _ => false

/-- `AlarmModel.setAlarm(time, enabled)`: throws (modelled as `Except.error`)
when `_isValidTimeFormat` rejects `time`, before any state is touched;
otherwise wholesale-replaces `activeAlarm`. -/
def setAlarm (st : AlarmState) (time : String) (enabled : Bool) :
    Except String AlarmState :=
  if isValidTimeFormat time then
    Except.ok { st with activeAlarm := some { time := time, enabled := enabled } }
  else
    Except.error "Invalid time format. Expected HH:MM"

/-- `AlarmModel.clearAlarm`. -/
def clearAlarm (st : AlarmState) : AlarmState :=
  { st with activeAlarm := none }

/-- `AlarmModel.toggleAlarm(enabled)`: no-op when no alarm exists. -/
def toggleAlarm (st : AlarmState) (enabled : Bool) : AlarmState :=
  match st.activeAlarm with
  | some a => { st with activeAlarm := some { a with enabled := enabled } }
  | none => st

/-- `AlarmModel.getAlarm`. -/
def getAlarm (st : AlarmState) : Option Alarm :=
  st.activeAlarm

/-- JS `String.prototype.split(sep)` on a single-character separator, over the
character list of the string: splits into the (possibly empty) fragments
between occurrences of `sep`. -/
def splitOnChar (sep : Char) : List Char → List (List Char)
  | [] => [[]]
  | c :: rest =>
      let r := splitOnChar sep rest
      if c = sep then [] :: r
      else
        match r with
        | h :: t => (c :: h) :: t
        | [] => [[c]]

/-- JS `Number(x)` applied to an indexed element of the split array, as an
optional natural: `none` models `NaN` (indexing past the end gives
`undefined`, and `Number(undefined)` is `NaN`; a non-numeric fragment is also
`NaN`), and `Number("")` is `0`. A `NaN` operand makes the strict equalities
in `shouldTrigger` false. -/
def jsNumberOfSegment : Option (List Char) → Option Nat
  | none => none
  | some [] => some 0
  | some cs =>
      if cs.all Char.isDigit then
        some (cs.foldl (fun n c => n * 10 + (c.toNat - 48)) 0)
      else none

/-- `AlarmModel.shouldTrigger(currentTime)`: false when no alarm exists or it
is disabled; otherwise split the stored time on `':'`, convert the first two
fragments with `Number`, and compare with the raw fields of the TimeValue. -/
def shouldTrigger (st : AlarmState) (currentTime : TimeValue) : Bool :=
  match st.activeAlarm with
  | none => false
  | some a =>
      if a.enabled then
        let parts := splitOnChar ':' a.time.data
        match jsNumberOfSegment parts[0]?, jsNumberOfSegment parts[1]? with
        | some alarmHours, some alarmMinutes =>
            currentTime.rawHours == alarmHours &&
            currentTime.rawMinutes == alarmMinutes &&
            currentTime.rawSeconds == 0
        | _, _ => false
      else false

/-- The three mutating AlarmModel operations a caller can issue. -/
inductive AlarmOp where
  | set (time : String) (enabled : Bool)
  | clear
  | toggle (enabled : Bool)
  deriving DecidableEq, Repr

/-- Apply one operation; a `setAlarm` rejection (the thrown error) leaves the
state exactly as it was. -/
def applyOp (st : AlarmState) : AlarmOp → AlarmState
  | AlarmOp.set time enabled =>
      match setAlarm st time enabled with
      | Except.ok st' => st'
      | Except.error _ => st
  | AlarmOp.clear => clearAlarm st
  | AlarmOp.toggle enabled => toggleAlarm st enabled

/-- Run a sequence of alarm operations. -/
def runOps (st : AlarmState) (ops : List AlarmOp) : AlarmState :=
  ops.foldl applyOp st

/-- The stored-alarm invariant: the alarm is absent or its `time` matches the
`HH:MM` pattern. -/
def alarmInvariant (st : AlarmState) : Prop :=
  ∀ a, st.activeAlarm = some a → isValidTimeFormat a.time = true

/-- A JS value that can be handed to `setFormat`: the source compares it with
`===` against the string `'24h'`, so strings and booleans suffice to model the
arguments the claims mention. -/
inductive JsVal where
  | str (s : String)
  | jsBool (b : Bool)
  deriving DecidableEq, Repr

/-- JS strict equality `===` on these values: same type and same value. -/
def strictEq : JsVal → JsVal → Bool
  | JsVal.str a, JsVal.str b => a == b
  | JsVal.jsBool a, JsVal.jsBool b => a == b
  | _, _ => false

/-- The `formatChanged` CustomEvent: its detail carries the raw argument. -/
structure FormatEvent where
  name : String
  detail : JsVal
  deriving DecidableEq, Repr

/-- `TimeModel.setFormat(format)`: `this.format24 = format === '24h'`, then
dispatch `formatChanged` with `{ format }`. Returns the new flag and the
dispatched event. -/
def setFormat (format : JsVal) : Bool × FormatEvent :=
  (strictEq format (JsVal.str "24h"),
   { name := "formatChanged", detail := format })

end ClockCore

namespace ClockCore

/-- C3: `shouldTrigger(timeValue)` is true iff an alarm exists, it is enabled,
and the TimeValue's `rawHours`/`rawMinutes` equal the alarm's parsed hour and
minute with `rawSeconds == 0`; a missing or disabled alarm yields `false`
(total function, no error); and after `setAlarm("07:30")`, TimeValues for
07:29:59, 07:30:00 and 07:30:01 yield `false, true, false`. -/
theorem shouldTrigger_spec :
    (∀ (st : AlarmState) (t : TimeValue),
      shouldTrigger st t = true ↔
        ∃ a, st.activeAlarm = some a ∧ a.enabled = true ∧
          jsNumberOfSegment (splitOnChar ':' a.time.data)[0]? = some t.rawHours ∧
          jsNumberOfSegment (splitOnChar ':' a.time.data)[1]? = some t.rawMinutes ∧
          t.rawSeconds = 0) ∧
    (∀ t, shouldTrigger { activeAlarm := none } t = false) ∧
    (∀ t time, shouldTrigger { activeAlarm := some { time := time, enabled := false } } t = false) ∧
    (shouldTrigger (runOps { activeAlarm := none } [AlarmOp.set "07:30" true]) (getTime true 7 29 59) = false ∧
     shouldTrigger (runOps { activeAlarm := none } [AlarmOp.set "07:30" true]) (getTime true 7 30 0) = true ∧
     shouldTrigger (runOps { activeAlarm := none } [AlarmOp.set "07:30" true]) (getTime true 7 30 1) = false) := by
  refine ⟨?_, fun t => rfl, fun t time => rfl, by decide, by decide, by decide⟩
  intro st t
  obtain ⟨oa⟩ := st
  cases oa with
  | none => simp [shouldTrigger]
  | some a =>
    cases hEn : a.enabled with
    | false => simp [shouldTrigger, hEn]
    | true =>
      rcases hH : jsNumberOfSegment (splitOnChar ':' a.time.data)[0]? with _ | ah
      · simp [shouldTrigger, hEn, hH]
      · rcases hM : jsNumberOfSegment (splitOnChar ':' a.time.data)[1]? with _ | am
        · simp [shouldTrigger, hEn, hH, hM]
        · simp [shouldTrigger, hEn, hH, hM]
          omega

/-- C8: from any state satisfying the stored-alarm invariant (alarm absent or
its `time` matching `^([01][0-9]|2[0-3]):[0-5][0-9]$`), every sequence of
`setAlarm` / `clearAlarm` / `toggleAlarm` operations preserves it; a rejected
`setAlarm` leaves the previous state intact, so no partially-updated state
ever appears. -/
theorem alarm_format_invariant (ops : List AlarmOp) (st : AlarmState)
    (h : alarmInvariant st) : alarmInvariant (runOps st ops) := by
  induction ops generalizing st with
  | nil => exact h
  | cons op rest ih =>
    refine ih (applyOp st op) ?_
    cases op with
    | set time enabled =>
      intro a ha
      by_cases hv : isValidTimeFormat time = true
      · simp only [applyOp, setAlarm, hv, if_true] at ha
        simp only [Option.some.injEq] at ha
        subst ha
        exact hv
      · simp only [applyOp, setAlarm, if_neg hv] at ha
        exact h a ha
    | clear =>
      intro a ha
      simp [applyOp, clearAlarm] at ha
    | toggle enabled =>
      intro a ha
      cases hst : st.activeAlarm with
      | none =>
        simp only [applyOp, toggleAlarm, hst] at ha
        exact Option.noConfusion ha
      | some b =>
        simp only [applyOp, toggleAlarm, hst, Option.some.injEq] at ha
        subst ha
        exact h b hst

/-- Witness for C8: the invariant holds after a concrete operation sequence
containing a rejected `setAlarm("99:99")` and a final disabled alarm. -/
theorem alarm_format_invariant_witness :
    alarmInvariant (runOps { activeAlarm := none }
      [AlarmOp.set "07:30" true, AlarmOp.toggle false, AlarmOp.set "99:99" true,
       AlarmOp.clear, AlarmOp.set "23:59" false]) :=
  alarm_format_invariant _ { activeAlarm := none } (fun _ ha => Option.noConfusion ha)

/-- C4: a `time` accepted by the `HH:MM` pattern makes `setAlarm` succeed with
`getAlarm().time` echoing the string exactly; a rejected `time` produces the
invalid-format error and (as `applyOp` records) leaves the prior alarm state
completely unchanged. -/
theorem setAlarm_spec (st : AlarmState) (time : String) (enabled : Bool) :
    (isValidTimeFormat time = true →
      setAlarm st time enabled =
        Except.ok { activeAlarm := some { time := time, enabled := enabled } } ∧
      (getAlarm { activeAlarm := some { time := time, enabled := enabled } }).map
        (fun a => a.time) = some time) ∧
    (isValidTimeFormat time = false →
      setAlarm st time enabled = Except.error "Invalid time format. Expected HH:MM" ∧
      applyOp st (AlarmOp.set time enabled) = st) := by
  constructor
  · intro hv
    refine ⟨?_, rfl⟩
    simp [setAlarm, hv]
  · intro hv
    refine ⟨?_, ?_⟩
    · simp [setAlarm, hv]
    · simp [applyOp, setAlarm, hv]

/-- Witness for C4: `"07:30"` is accepted; `"24:00"`, `"9:30"` and `"12:60"`
are rejected with the error and the prior alarm untouched. -/
theorem setAlarm_spec_witness :
    (setAlarm { activeAlarm := some { time := "12:00", enabled := true } } "07:30" true =
      Except.ok { activeAlarm := some { time := "07:30", enabled := true } }) ∧
    (setAlarm { activeAlarm := some { time := "12:00", enabled := true } } "24:00" false =
      Except.error "Invalid time format. Expected HH:MM") ∧
    (applyOp { activeAlarm := some { time := "12:00", enabled := true } }
      (AlarmOp.set "9:30" true) = { activeAlarm := some { time := "12:00", enabled := true } }) ∧
    (setAlarm { activeAlarm := some { time := "12:00", enabled := true } } "12:60" true =
      Except.error "Invalid time format. Expected HH:MM") :=
  ⟨((setAlarm_spec { activeAlarm := some { time := "12:00", enabled := true } } "07:30" true).1
      (by decide)).1,
   ((setAlarm_spec { activeAlarm := some { time := "12:00", enabled := true } } "24:00" false).2
      (by decide)).1,
   ((setAlarm_spec { activeAlarm := some { time := "12:00", enabled := true } } "9:30" true).2
      (by decide)).2,
   ((setAlarm_spec { activeAlarm := some { time := "12:00", enabled := true } } "12:60" true).2
      (by decide)).1⟩

/-- C6: when a tick observes more than 60000 ms of wall time since the last
sync, the drift correction grows by the difference between the theoretical
60000 ms and the actual elapsed time, and the sync anchor resets to the
observed time. -/
theorem onTickDrift_spec (now : Int) (st : DriftState)
    (h : now - st.lastSyncTime > 60000) :
    (onTickDrift now st).driftCorrection =
      st.driftCorrection + (60000 - (now - st.lastSyncTime)) ∧
    (onTickDrift now st).lastSyncTime = now := by
  refine ⟨?_, ?_⟩ <;> simp [onTickDrift, h, correctDrift]
  omega

/-- Witness for C6: a callback arriving 5000 ms late 60 seconds after a sync
at epoch 0 shifts the drift correction by `-5000` and resets the anchor. -/
theorem onTickDrift_spec_witness :
    (onTickDrift 65000 { lastSyncTime := 0, driftCorrection := 0 }).driftCorrection =
      0 + (60000 - (65000 - 0)) ∧
    (onTickDrift 65000 { lastSyncTime := 0, driftCorrection := 0 }).lastSyncTime = 65000 :=
  onTickDrift_spec 65000 { lastSyncTime := 0, driftCorrection := 0 } (by decide)

/-- C7: `_scheduleNextTick` queues the next callback exactly
`1000 - (now % 1000)` ms ahead — landing on the next wall-clock second
boundary `1000 * (now / 1000 + 1)` — and a firing callback recomputes the
next deadline from the fresh clock reading the same way instead of stepping
by a fixed 1000 ms. -/
theorem scheduleNextTick_spec (now : Nat) (st : SchedState) :
    (scheduleNextTick now st).pendingDeadline = some (now + (1000 - now % 1000)) ∧
    now + (1000 - now % 1000) = 1000 * (now / 1000 + 1) ∧
    (∀ t d, st.pendingDeadline = some d → d ≤ t →
      (fireTimeout t st).pendingDeadline = some (t + (1000 - t % 1000))) := by
  refine ⟨rfl, by omega, ?_⟩
  intro t d hd hle
  simp [fireTimeout, hd, hle, scheduleNextTick, msUntilNextSecond]

/-- Witness for C7: scheduling at `now = 4250` queues a 750 ms delay, and a
callback firing 50 ms late at `t = 4300` reschedules for `4300 + 700`, not a
fixed 1000 ms step. -/
theorem scheduleNextTick_spec_witness :
    (scheduleNextTick 4250 { pendingDeadline := none, animationFrameId := none, tickCount := 0 }).pendingDeadline
      = some (4250 + (1000 - 4250 % 1000)) ∧
    (fireTimeout 4300 { pendingDeadline := some 4250, animationFrameId := none, tickCount := 0 }).pendingDeadline
      = some (4300 + (1000 - 4300 % 1000)) :=
  ⟨(scheduleNextTick_spec 4250 { pendingDeadline := none, animationFrameId := none, tickCount := 0 }).1,
   (scheduleNextTick_spec 4300 { pendingDeadline := some 4250, animationFrameId := none, tickCount := 0 }).2.2
     4300 4250 rfl (by decide)⟩

/-- C1 (code evaluated at the failing input): `getTime` reassigns the `hours`
variable to the 12h display value before storing it into `rawHours`, so for
the same instant 13:00:00 `rawHours` is `13` in 24h mode but `1` in 12h mode
— not the display-independent 0–23 calendar hour the spec describes; at
midnight in 12h mode `rawHours` is `12`, never `0`. -/
theorem rawHours_depends_on_display_format :
    (getTime true 13 0 0).rawHours = 13 ∧
    (getTime false 13 0 0).rawHours = 1 ∧
    (getTime false 13 0 0).rawHours ≠ (getTime true 13 0 0).rawHours ∧
    (getTime false 0 0 0).rawHours = 12 := by
  decide

/-- C2 (code evaluated at the failing input): `start` at epoch 0 queues a
timeout for t = 1000 and returns the never-assigned `animationFrameId`
(undefined); `stop` leaves the state untouched because `animationFrameId` is
never truthy, and the queued timeout still fires at t = 1000, runs the tick
callback (`tickCount` becomes 1) and rearms itself for t = 2000. -/
theorem tick_fires_after_stop :
    (startSched 0 { pendingDeadline := none, animationFrameId := none, tickCount := 0 }).2 = none ∧
    stop (startSched 0 { pendingDeadline := none, animationFrameId := none, tickCount := 0 }).1 =
      (startSched 0 { pendingDeadline := none, animationFrameId := none, tickCount := 0 }).1 ∧
    (fireTimeout 1000
      (stop (startSched 0 { pendingDeadline := none, animationFrameId := none, tickCount := 0 }).1)).tickCount = 1 ∧
    (fireTimeout 1000
      (stop (startSched 0 { pendingDeadline := none, animationFrameId := none, tickCount := 0 }).1)).pendingDeadline
      = some 2000 := by
  decide

/-- C5 (code evaluated at the failing input): the hour angle
`(rawHours / 12) * 360 + (rawMinutes / 60) * 30` reaches 690° at 23:00:00 in
24h mode and exactly 360° at 12:00:00 in 12h mode, so it is not confined to
`[0, 360)`; the second angle does equal 0 at `rawSeconds = 0` and 180 at
`rawSeconds = 30` as claimed. -/
theorem handAngles_hour_out_of_range :
    (getHandAngles true 23 0 0).hour = 690 ∧
    ¬ (getHandAngles true 23 0 0).hour < 360 ∧
    (getHandAngles false 12 0 0).hour = 360 ∧
    ¬ (getHandAngles false 12 0 0).hour < 360 ∧
    (getHandAngles true 0 0 0).second = 0 ∧
    (getHandAngles true 0 0 30).second = 180 := by
  refine ⟨?_, ?_, ?_, ?_, ?_, ?_⟩ <;> norm_num [getHandAngles, getTime, hourOr12]

/-- C9: in 12h mode raw calendar hour 0 displays as `"12"` with period `AM`,
12 as `"12"` with `PM`, 13 as `"01"` with `PM` (midnight and noon render as
12, never 0); in 24h mode the hour passes through unconverted and no AM/PM
computation applies — the `period` field keeps its `'AM'` initializer
independent of the hour. -/
theorem getTime_format_spec :
    (∀ m s, (getTime false 0 m s).hours = "12" ∧ (getTime false 0 m s).period = "AM") ∧
    (∀ m s, (getTime false 12 m s).hours = "12" ∧ (getTime false 12 m s).period = "PM") ∧
    (∀ m s, (getTime false 13 m s).hours = "01" ∧ (getTime false 13 m s).period = "PM") ∧
    (∀ h m s, (getTime true h m s).hours = padZero h ∧ (getTime true h m s).rawHours = h ∧
      (getTime true h m s).period = "AM") :=
  ⟨fun _ _ => ⟨rfl, rfl⟩, fun _ _ => ⟨rfl, rfl⟩, fun _ _ => ⟨rfl, rfl⟩,
   fun _ _ _ => ⟨rfl, rfl, rfl⟩⟩

/-- C10: `setFormat` selects 24-hour mode iff its argument is strictly equal
(`===`) to the string `'24h'`; the boolean `true`, the string `"24H"` and any
other value select 12-hour mode, and the `formatChanged` event always carries
the raw argument. -/
theorem setFormat_spec :
    (∀ v, (setFormat v).1 = true ↔ v = JsVal.str "24h") ∧
    (∀ v, (setFormat v).2 = { name := "formatChanged", detail := v }) ∧
    (setFormat (JsVal.jsBool true)).1 = false ∧
    (setFormat (JsVal.str "24H")).1 = false := by
  refine ⟨?_, fun v => rfl, by decide, by decide⟩
  intro v
  cases v with
  | str s => simp [setFormat, strictEq]
  | jsBool b => simp [setFormat, strictEq]

end ClockCore
